import Mathlib

/-!
Verification of the resilient fetch and chapter-download engine
(scraper.py, cache.py) against its natural-language specification.

The Python source is shallowly embedded: pure string manipulation is
translated to executable functions over `List Char`, the stateful
download coordinator to explicit state passing, and the network layer
to oracle parameters (lists of responses / lookup functions), since the
actual HTTP traffic is an external input to every code path modelled
here.
-/

namespace NovelScraper

/-! ### String utilities (Python `str` operations on `List Char`) -/

/-- Python `s.startswith(pat)` on character lists. -/
def startsWithL : List Char → List Char → Bool
  | _, [] => true
  | [], _ :: _ => false
  | c :: cs, d :: ds => c == d && startsWithL cs ds

/-- Case-insensitive variant used for `re.IGNORECASE` scans; the pattern
is supplied already lowercased. -/
def startsWithCI : List Char → List Char → Bool
  | _, [] => true
  | [], _ :: _ => false
  | c :: cs, d :: ds => c.toLower == d && startsWithCI cs ds

/-- Python substring test `pat in s` on character lists. -/
def containsSubL (s pat : List Char) : Bool :=
  match s with
  | [] => pat.isEmpty
  | _ :: rest => startsWithL s pat || containsSubL rest pat

/-- Python `pat in s` for strings. -/
def containsSub (s pat : String) : Bool :=
  containsSubL s.data pat.data

/-- Python `s.lower()` (ASCII as used by the scraper). -/
def lowerL (s : List Char) : List Char :=
  s.map Char.toLower

/-- Python `s.endswith(pat)`. -/
def endsWithL (s pat : List Char) : Bool :=
  startsWithL s.reverse pat.reverse

/-- Python `s.lstrip()` restricted to a set of characters. -/
def lstripSet (cset : List Char) : List Char → List Char
  | [] => []
  | c :: cs => if cset_mem c cset then lstripSet cset cs else c :: cs
where
  cset_mem (c : Char) (cset : List Char) : Bool := cset.contains c

/-- Python `s.lstrip()` (whitespace). -/
def lstripL : List Char → List Char
  | [] => []
  | c :: cs => if c.isWhitespace then lstripL cs else c :: cs

/-- Python `s.strip()` (whitespace both ends). -/
def stripL (s : List Char) : List Char :=
  ((lstripL s).reverse |> lstripL).reverse

/-- Leading digit run of a character list, with the remainder. -/
def digitRun : List Char → List Char × List Char
  | [] => ([], [])
  | c :: cs =>
    if c.isDigit then
      let p := digitRun cs
      (c :: p.1, p.2)
    else ([], c :: cs)

/-- Numeric value of a digit run (Python `int(...)` on the regex group). -/
def natOfDigits (ds : List Char) : Nat :=
  ds.foldl (fun a c => a * 10 + (c.toNat - 48)) 0

/-- Characters after the last slash, when the list contains a slash. -/
def afterLastSlash (s : List Char) : Option (List Char) :=
  if s.contains '/' then some ((s.reverse.takeWhile (fun c => !(c == '/'))).reverse)
  else none

/-! ### Scraper._extract_chapter_number (scraper.py lines 3837-3857)

The Python function tries three regular expressions in order and falls
back to the sentinel 999999 when none matches.  Each regex is embedded
as its own matcher so the cascade can be stated as a theorem. -/

/-- Continuation of the first regex after a case-insensitive match of
the literal "chapter": optional single hyphen or underscore, then at
least one digit (regex `chapter[-_]?(\d+)` with backtracking: a hyphen
or underscore is consumed only when a digit follows). -/
def chapterPatCore (s : List Char) : Option Nat :=
  match s with
  | [] => none
  | c :: cs =>
    if c == '-' || c == '_' then
      match cs with
      | [] => none
      | d :: _ => if d.isDigit then some (natOfDigits (digitRun cs).1) else none
    else if c.isDigit then some (natOfDigits (digitRun (c :: cs)).1)
    else none

/-- Regex 1: leftmost match of `chapter[-_]?(\d+)` (case-insensitive). -/
def chapterPat : List Char → Option Nat
  | [] => none
  | c :: rest =>
    if startsWithCI (c :: rest) "chapter".data then
      match chapterPatCore ((c :: rest).drop 7) with
      | some n => some n
      | none => chapterPat rest
    else chapterPat rest

/-- Regex 2: `/(\d+)(?:\.html)?$` — the URL ends with a slash followed
by a nonempty digit run, optionally suffixed by ".html". -/
def trailingPat (s : List Char) : Option Nat :=
  let t := if endsWithL s ".html".data then s.dropLast.dropLast.dropLast.dropLast.dropLast else s
  match afterLastSlash t with
  | none => none
  | some seg =>
    if seg.isEmpty then none
    else if seg.all Char.isDigit then some (natOfDigits seg) else none

/-- Regex 3: leftmost match of `/c(\d+)` (case-insensitive). -/
def cPat : List Char → Option Nat
  | [] => none
  | '/' :: c :: rest =>
    if (c == 'c' || c == 'C') &&
        (match rest with | d :: _ => d.isDigit | [] => false) then
      some (natOfDigits (digitRun rest).1)
    else cPat (c :: rest)
  | _ :: rest => cPat rest

/-- Scraper._extract_chapter_number: the three regexes in order, with
sentinel 999999 when none matches (the Python function returns 999999
rather than None on every reachable path). -/
def extractChapterNumber (url : List Char) : Nat :=
  match chapterPat url with
  | some n => n
  | none =>
    match trailingPat url with
    | some n => n
    | none =>
      match cPat url with
      | some n => n
      | none => 999999

/-- String-level wrapper. -/
def extractNum (url : String) : Nat :=
  extractChapterNumber url.data

/-- A URL matched by none of the three patterns. -/
def noPatternMatches (url : String) : Bool :=
  (chapterPat url.data).isNone && (trailingPat url.data).isNone && (cPat url.data).isNone


/-! ### URL parsing (`urllib.parse.urlparse` as used by the scraper) -/

/-- Network location of an absolute URL: the characters between "://"
and the next slash (scraper uses `urlparse(url).netloc`). -/
def netlocOf (url : String) : String :=
  ⟨netlocAux url.data⟩
where
  netlocAux : List Char → List Char
    | [] => []
    | s@(_ :: rest) =>
      if startsWithL s "://".data then (s.drop 3).takeWhile (fun c => !(c == '/'))
      else netlocAux rest

/-- Path component of an absolute URL: from the first slash after the
authority, up to a query or fragment delimiter (`urlparse(url).path`). -/
def pathOf (url : String) : String :=
  ⟨pathAux url.data⟩
where
  afterScheme : List Char → List Char
    | [] => []
    | s@(_ :: rest) =>
      if startsWithL s "://".data then (s.drop 3).dropWhile (fun c => !(c == '/'))
      else afterScheme rest
  pathAux (s : List Char) : List Char :=
    (afterScheme s).takeWhile (fun c => !(c == '?') && !(c == '#'))


/-! ### Chapter data (the chapter dicts built by Scraper._download_chapter) -/

/-- The chapter dictionary assembled by the scraper:
title, content, chapter_num and url. -/
structure Chapter where
  title : String
  content : String
  chapter_num : Nat
  url : String
deriving DecidableEq, Repr

/-! ### NovelCache (cache.py)

Chapter entries are files addressed by `chapters_dir / md5(novel_url) /
md5(chapter_url).json` when a novel URL is given and by
`chapters_dir / md5(chapter_url).json` otherwise.  The md5 digest is
modelled by an abstract hash function `h`; the spec treats distinct
URLs as having distinct digests, which theorems state as an explicit
hypothesis on `h`.  The file store is an association list keyed by the
file path, writes overwriting any previous file at the same path. -/

/-- File path of a chapter cache entry: optional novel-hash directory
plus the chapter-hash file name (NovelCache.get_chapter/set_chapter). -/
structure CacheKey where
  novelHash : Option String
  chapterHash : String
deriving DecidableEq, Repr

/-- The chapter store: one record per file path, newest write first. -/
def ChapterCache := List (CacheKey × Chapter)

/-- Key used by NovelCache.get_chapter and NovelCache.set_chapter for
`(chapter_url, novel_url)` under hash function `h`. -/
def chapterKey (h : String → String) (chapterUrl : String) (novelUrl : Option String) : CacheKey :=
  { novelHash := novelUrl.map h, chapterHash := h chapterUrl }

/-- NovelCache.get_chapter (cache.py lines 145-163): read the file at
the derived path, if present. -/
def getChapter (h : String → String) (cache : ChapterCache)
    (chapterUrl : String) (novelUrl : Option String) : Option Chapter :=
  (cache.find? (fun e => e.1 == chapterKey h chapterUrl novelUrl)).map (·.2)

/-- NovelCache.set_chapter (cache.py lines 165-182): write the content
dict to the file at the derived path, overwriting. -/
def setChapter (h : String → String) (cache : ChapterCache)
    (chapterUrl : String) (content : Chapter) (novelUrl : Option String) : ChapterCache :=
  (chapterKey h chapterUrl novelUrl, content) :: cache

/-- NovelCache.clear_novel_chapters (cache.py lines 221-228): remove the
directory `chapters_dir / md5(novel_url)`, i.e. every entry whose
novel-hash component equals that digest. -/
def clearNovelChapters (h : String → String) (cache : ChapterCache)
    (novelUrl : String) : ChapterCache :=
  cache.filter (fun e => !(e.1.novelHash == some (h novelUrl)))

/-! ### Sorting

Python `list.sort(key=...)` is a stable sort; `List.insertionSort` with
a non-strict key comparison is stable in the same sense and is used as
the embedding of both sort sites (chapter links at scrape lines
2098-2101, downloaded chapters at line 2221). -/

/-- Key comparison for the chapter sort, whose key is the chapter_num
entry with default 0. -/
def chapterNumLE (a b : Chapter) : Prop := a.chapter_num ≤ b.chapter_num

instance : DecidableRel chapterNumLE :=
  fun a b => inferInstanceAs (Decidable (a.chapter_num ≤ b.chapter_num))

instance : IsTotal Chapter chapterNumLE := ⟨fun a b => Nat.le_total _ _⟩

instance : IsTrans Chapter chapterNumLE := ⟨fun _ _ _ hab hbc => Nat.le_trans hab hbc⟩

/-- Scraper.scrape line 2221: sort collected chapters by chapter_num. -/
def sortChapters (l : List Chapter) : List Chapter :=
  l.insertionSort chapterNumLE

/-- Sort key for chapter links: `self._extract_chapter_number(x) or 0`
(the extractor never returns None, and `0 or 0` is `0`, so the key is
the extractor value itself). -/
def linkKey (u : String) : Nat := extractNum u

/-- Key comparison for the link sort at scrape lines 2098-2101. -/
def linkLE (a b : String) : Prop := linkKey a ≤ linkKey b

instance : DecidableRel linkLE :=
  fun a b => inferInstanceAs (Decidable (linkKey a ≤ linkKey b))

instance : IsTotal String linkLE := ⟨fun a b => Nat.le_total _ _⟩

instance : IsTrans String linkLE := ⟨fun _ _ _ hab hbc => Nat.le_trans hab hbc⟩

/-- Scraper.scrape lines 2098-2101: sort chapter links by inferred number. -/
def sortLinks (links : List String) : List String :=
  links.insertionSort linkLE


/-! ### Link-list assembly (Scraper._get_chapter_links_from_html)

Every branch of the extractor appends a candidate URL with
`if full not in links: links.append(full)`; the anchor scraping itself
(BeautifulSoup) is abstracted into the candidate list. -/

/-- One `if full not in links: links.append(full)` step. -/
def appendUnique (links : List String) (full : String) : List String :=
  if full ∈ links then links else links ++ [full]

/-- The accumulation of candidate hrefs into the link list. -/
def assembleLinks (candidates : List String) : List String :=
  candidates.foldl appendUnique []


/-! ### Worker count for chapter downloads (Scraper.scrape) -/

/-- The protected-site table at scrape line 2011. -/
def protectedSites : List String := ["novelbin", "lightnovelworld", "qidian", "webnovel"]

/-- scrape line 2012: first protected site whose name occurs in the URL. -/
def protectedSiteOf (url : String) : Option String :=
  protectedSites.find? (fun s => containsSub url s)

/-- Parallelism after the chapter-list phase: scrape lines 2007-2017
lower `self.parallel_workers` to at most 2 for protected sites, inside
the non-ranobes branch only. -/
def workersAfterListing (url : String) (pw : Nat) : Nat :=
  if containsSub url "ranobes" then pw
  else
    match protectedSiteOf url with
    | some _ => min pw 2
    | none => pw

/-- Worker count actually used for chapter downloads: scrape lines
2163-2167 force 1 for ranobes URLs. -/
def chapterWorkers (url : String) (pw : Nat) : Nat :=
  if containsSub url "ranobes" then 1 else workersAfterListing url pw

/-! ### Content normalization inside Scraper._download_chapter
(lines 3094-3119).  Content strings are modelled with LF newlines,
which is what the extraction stage produces (it joins text nodes with
LF). -/

/-- Python str.splitlines for LF-separated text: split on every LF and
drop the empty trailing piece produced by a final LF. -/
def splitOnNl : List Char → List (List Char)
  | [] => [[]]
  | c :: cs =>
    let ps := splitOnNl cs
    if c == '\n' then [] :: ps
    else
      match ps with
      | p :: rest => (c :: p) :: rest
      | [] => [[c]]

/-- Python str.splitlines (LF case). -/
def splitLinesL (s : List Char) : List (List Char) :=
  match s with
  | [] => []
  | _ =>
    let ps := splitOnNl s
    if s.getLast? == some '\n' then ps.dropLast else ps


/-- Second cleanup pass (lines 3109-3116): collapse consecutive blank
lines and strip leading indentation; the flag records whether the last
emitted line was blank. -/
def collapsePass : Bool → List (List Char) → List (List Char)
  | _, [] => []
  | prevBlank, ln :: rest =>
    if ln.isEmpty then
      if prevBlank then collapsePass true rest
      else [] :: collapsePass true rest
    else lstripL ln :: collapsePass false rest

/-- Regex `\n{3,}` replaced by two LFs (line 3119): emit at most two
LFs of each run. -/
def squeezeNlAux : Nat → List Char → List Char
  | _, [] => []
  | seen, c :: rest =>
    if c == '\n' then
      if seen ≥ 2 then squeezeNlAux (seen + 1) rest
      else '\n' :: squeezeNlAux (seen + 1) rest
    else c :: squeezeNlAux 0 rest

def squeezeNl (s : List Char) : List Char := squeezeNlAux 0 s

/-- Lines 3094-3119: replace NBSP by space, split into lines, strip
each line, drop duplicated title lines and novel-name chapter lines,
collapse blanks, rejoin. `novelSlug` is the already lowercased,
dash-to-space novel slug. -/
def normalizeContent (content : String) (title : String)
    (novelSlug : Option (List Char)) : String :=
  let content1 := content.data.map (fun c => if c == Char.ofNat 160 then ' ' else c)
  let lines := splitLinesL content1
  let normalized := lines.filterMap (fun ln =>
    let stripped := stripL ln
    if !stripped.isEmpty && !title.isEmpty && lowerL stripped == lowerL title.data then none
    else if (match novelSlug with
             | some sl =>
               !sl.isEmpty && startsWithL (lowerL stripped) sl &&
                 containsSubL (lowerL stripped) "chapter".data
             | none => false) then none
    else some stripped)
  ⟨squeezeNl (List.intercalate ['\n'] (collapsePass false normalized))⟩

/-! ### The tail of Scraper._download_chapter (lines 3054-3156)

Everything from title extraction to the cache write, given the h1 text
and the extracted raw content as inputs (the fetch ladder and the
BeautifulSoup selectors that produce them are upstream of this slice of
the function). -/

/-- Regex `/novel/([^/?#]+)` (line 3062): leftmost nonempty capture. -/
def novelSlugCapture : List Char → Option (List Char)
  | [] => none
  | s@(_ :: rest) =>
    if startsWithL s "/novel/".data then
      let seg := (s.drop 7).takeWhile (fun c => !(c == '/') && !(c == '?') && !(c == '#'))
      if seg.isEmpty then novelSlugCapture rest else some seg
    else novelSlugCapture rest

/-- Regex `(Chapter\s*\d+[^\n]*)` with IGNORECASE (line 3069): leftmost
match, extending to the end of the line. -/
def titleChapterMatch : List Char → Option (List Char)
  | [] => none
  | s@(_ :: rest) =>
    if startsWithCI s "chapter".data then
      match (s.drop 7).dropWhile Char.isWhitespace with
      | d :: _ =>
        if d.isDigit then some (s.takeWhile (fun c => !(c == '\n')))
        else titleChapterMatch rest
      | [] => titleChapterMatch rest
    else titleChapterMatch rest

/-- Lines 3069-3075: pick the chapter-title portion of the h1 text and
drop a leading novel-name slug. -/
def computeTitle (titleRaw : String) (novelSlug : Option (List Char)) : String :=
  let cand :=
    match titleChapterMatch titleRaw.data with
    | some m => stripL m
    | none => stripL titleRaw.data
  let cand2 :=
    match novelSlug with
    | some sl =>
      if !sl.isEmpty && startsWithL (lowerL cand) sl then
        let trimmed := lstripSet [' ', '-', ':', Char.ofNat 0x2013] (cand.drop sl.length)
        if trimmed.isEmpty then cand else trimmed
      else cand
    | none => cand
  ⟨cand2⟩

/-- Line 3079: `self._extract_chapter_number(title) if title else None`. -/
def titleNumOf (title : String) : Option Nat :=
  if title.isEmpty then none else some (extractNum title)

/-- Lines 3061-3067: the raw `/novel/` slug capture of the novel URL. -/
def novelCaptureOf (novelUrl : Option String) : Option (List Char) :=
  novelUrl.bind (fun nu => novelSlugCapture nu.data)

/-- Line 3064: slug with dashes replaced by spaces, lowercased. -/
def novelSlugOf (novelUrl : Option String) : Option (List Char) :=
  (novelCaptureOf novelUrl).map
    (fun c => lowerL (c.map (fun ch => if ch == '-' then ' ' else ch)))

/-- Line 3067: base path of the novel for slug-addressed sites. -/
def novelBasePathOf (novelUrl : Option String) : Option (List Char) :=
  (novelCaptureOf novelUrl).map (fun c => "/novel/".data ++ lowerL c)

/-- Lines 3069-3075 applied with the slug of the requested novel. -/
def tailTitle (titleRaw : String) (novelUrl : Option String) : String :=
  computeTitle titleRaw (novelSlugOf novelUrl)

/-- Lines 3094-3119 applied to the extracted content (empty content is
left untouched by the `if content:` guard). -/
def tailContent (content titleRaw : String) (novelUrl : Option String) : String :=
  if content.isEmpty then content
  else normalizeContent content (tailTitle titleRaw novelUrl) (novelSlugOf novelUrl)

/-- Lines 3077-3085: the number-mismatch flag, with Python truthiness
(a zero expected, title or URL number never triggers it). -/
def numberMismatchOf (url : String) (chapterNum : Nat) (titleRaw : String)
    (novelUrl : Option String) : Bool :=
  (chapterNum != 0 && (match titleNumOf (tailTitle titleRaw novelUrl) with
                       | some t => t != 0 && t != chapterNum
                       | none => false))
    || (chapterNum != 0 && extractNum url != 0 && extractNum url != chapterNum)

/-- Lines 3087-3092: the slug/base-path mismatch flag for NovelBuddy. -/
def slugPathMismatchOf (url : String) (novelUrl : Option String) : Bool :=
  match novelBasePathOf novelUrl with
  | some bp => containsSub url "novelbuddy" && !startsWithL (lowerL (pathOf url).data) bp
  | none => false

/-- Lines 3135-3152: the condition under which the chapter content is
written to the permanent chapter cache. -/
def cacheWriteOk (c : String) : Bool :=
  !c.isEmpty && decide (200 < c.length) &&
    !containsSub c "Rate limited" &&
    !containsSubL (lowerL c.data) "abnormal activity".data

/-- Lines 3128-3133: the chapter dict assembled from the cleaned title
and normalized content. -/
def tailChapterData (url : String) (chapterNum : Nat) (novelUrl : Option String)
    (titleRaw : String) (content : String) : Chapter :=
  { title := tailTitle titleRaw novelUrl,
    content := tailContent content titleRaw novelUrl,
    chapter_num := chapterNum, url := url }

/-- Lines 3054-3156 of Scraper._download_chapter: returns the chapter
dict (or None on the slugged-site mismatch guard) together with the
chapter cache after the guarded write. -/
def downloadChapterTail (h : String → String) (url : String) (chapterNum : Nat)
    (novelUrl : Option String) (titleRaw : String) (content : String)
    (cache : ChapterCache) : Option Chapter × ChapterCache :=
  if (numberMismatchOf url chapterNum titleRaw novelUrl || slugPathMismatchOf url novelUrl)
      && containsSub url "novelbuddy" then (none, cache)
  else if cacheWriteOk (tailContent content titleRaw novelUrl) then
    (some (tailChapterData url chapterNum novelUrl titleRaw content),
     setChapter h cache url (tailChapterData url chapterNum novelUrl titleRaw content) novelUrl)
  else (some (tailChapterData url chapterNum novelUrl titleRaw content), cache)

/-! ### Scraper._normalize_chapters (scraper.py lines 2273-2334) -/

/-- Python slice `l[:d]` for a possibly negative bound. -/
def pyTakeInt (l : List α) (d : Int) : List α :=
  if 0 ≤ d then l.take d.toNat else l.take (l.length - d.natAbs)

/-- Lines 2283-2289: find and remove the first chapter whose title
starts with "prologue" (case-insensitive); when none matches the caller
falls back to the list head. -/
def findPrologue : List Chapter → Option Chapter × List Chapter
  | [] => (none, [])
  | c :: cs =>
    if startsWithL (lowerL c.title.data) "prologue".data then (some c, cs)
    else
      let p := findPrologue cs
      (p.1, c :: p.2)

/-- Lines 2299-2303: drop the novel suffix after a pipe and strip. -/
def cleanTitleR (raw : String) : String :=
  if raw.isEmpty then ""
  else ⟨stripL (raw.data.takeWhile (fun c => !(c == '|')))⟩

/-- Lines 2307-2319: final display title of a main chapter. -/
def finalTitle (isRanobes : Bool) (idx : Nat) (titleRaw : String) : String :=
  if isRanobes then
    let base := cleanTitleR titleRaw
    if startsWithL (lowerL base.data) "chapter".data then base
    else if !base.isEmpty then "Chapter " ++ toString idx ++ " | " ++ base
    else "Chapter " ++ toString idx
  else if titleRaw.isEmpty then "Chapter " ++ toString idx
  else titleRaw

/-- Lines 2305-2324: renumber the remaining chapters consecutively from
the main start number, retitling each. -/
def numberChapters (isRanobes : Bool) (idx : Nat) : List Chapter → List Chapter
  | [] => []
  | c :: cs =>
    { c with title := finalTitle isRanobes idx c.title, chapter_num := idx } ::
      numberChapters isRanobes (idx + 1) cs

/-- Lines 2280-2292: the extracted prologue (when requested) and the
remaining main chapters. -/
def prologueSplit (includePrologue : Bool) (chapters : List Chapter) :
    Option Chapter × List Chapter :=
  if includePrologue then
    match findPrologue chapters with
    | (some p, rest) => (some p, rest)
    | (none, _) => (chapters.head?, chapters.drop 1)
  else (none, chapters)

/-- Lines 2294-2297: trim the main chapters to the requested count when
a truthy chapter_end was given. -/
def trimToRange (chapterStart : Nat) (chapterEnd : Option Nat)
    (l : List Chapter) : List Chapter :=
  match chapterEnd with
  | some e =>
    if e != 0 then pyTakeInt l ((e : Int) - (chapterStart : Int) + 1) else l
  | none => l

/-- Lines 2326-2331: the retitled prologue entry at chapter number 0. -/
def prologueEntry : Option Chapter → List Chapter
  | some p => [{ p with title := "Prologue", chapter_num := 0 }]
  | none => []

/-- Scraper._normalize_chapters: title cleanup, prologue extraction and
consecutive renumbering.  `chapterEnd` keeps the Python truthiness of
`if chapter_end:` (None and 0 both falsy). -/
def normalizeChapters (chapters : List Chapter) (includePrologue : Bool)
    (chapterStart : Nat) (chapterEnd : Option Nat) (url : String) : List Chapter :=
  if chapters.isEmpty then chapters
  else
    prologueEntry (prologueSplit includePrologue chapters).1 ++
      numberChapters (containsSub url "ranobes")
        (if includePrologue then 1 else chapterStart)
        (trimToRange chapterStart chapterEnd (prologueSplit includePrologue chapters).2)

/-! ### Scraper._get_with_retry (scraper.py lines 3220-3358)

The network is an input: `attempts` lists the outcome of each attempt
of the retry loop (`none` for a raised Timeout/ConnectionError/other
exception), and `mirrorFetch` gives the response obtained from a mirror
domain.  Delays, logging, header selection and session rotation do not
affect which response is returned and are not modelled. -/

/-- An HTTP response as the ladder sees it: status code and body text. -/
structure HResp where
  status : Nat
  body : String
deriving DecidableEq, Repr

/-- Lines 3283-3292: the blocked classification of a 200 response, on
the lowercased first 800 characters of the body. -/
def blockedBody200 (body : String) : Bool :=
  let s := lowerL (body.data.take 800)
  containsSubL s "just a moment".data || containsSubL s "checking your browser".data ||
    (containsSubL s "cloudflare".data && containsSubL s "challenge".data) ||
    containsSubL s "dear visitor".data || containsSubL s "abnormal activity".data

/-- A response the spec classifies as blocked: status 403/503/429 or a
challenge/bot-block signature in the body. -/
def blockedResp (r : HResp) : Bool :=
  r.status == 403 || r.status == 503 || r.status == 429 || blockedBody200 r.body

/-- The retry loop (lines 3254-3326): a 200 response without a block
signature is returned; every other outcome - blocked 200, 403, 503,
429, any other status, or an exception - continues with the next
attempt. -/
def retryLoop : List (Option HResp) → Option HResp
  | [] => none
  | none :: rest => retryLoop rest
  | some r :: rest =>
    if r.status == 200 then
      if blockedBody200 r.body then retryLoop rest else some r
    else retryLoop rest

/-- The SITE_MIRRORS table (scraper.py lines 91-105). -/
def SITE_MIRRORS : List (String × List String) :=
  [("novelbin",
    ["novelbin.me", "novelbin.com", "novelbin.cfd", "novelbin.net",
     "novelbin.org", "novelbin.cc", "novelbin.tv"]),
   ("lightnovelworld",
    ["lightnovelworld.com", "lightnovelworld.co", "lnworld.com"]),
   ("freewebnovel",
    ["freewebnovel.com", "freewebnovel.me", "freewebnovel.net"]),
   ("novelfire",
    ["novelfire.net", "novelfire.com", "novelfire.org"])]

/-- Lines 3244-3248: first mirror key occurring in the domain. -/
def siteKeyOf (domain : String) : Option (String × List String) :=
  SITE_MIRRORS.find? (fun p => containsSub domain p.1)

/-- The mirror fallback (lines 3328-3356): domains already present in
the URL are skipped; a mirror response is accepted when its status is
200 and the lowercased first 500 characters of its body do not contain
"checking your browser". -/
def mirrorLoop (url : String) (mirrorFetch : String → Option HResp) :
    List String → Option HResp
  | [] => none
  | m :: rest =>
    if containsSub url m then mirrorLoop url mirrorFetch rest
    else
      match mirrorFetch m with
      | none => mirrorLoop url mirrorFetch rest
      | some r =>
        if r.status == 200 &&
            !containsSubL (lowerL (r.body.data.take 500)) "checking your browser".data then
          some r
        else mirrorLoop url mirrorFetch rest

/-- Scraper._get_with_retry: the retry loop, then the mirror fallback
for sites with known mirrors. -/
def getWithRetry (url : String) (attempts : List (Option HResp))
    (mirrorFetch : String → Option HResp) : Option HResp :=
  match retryLoop attempts with
  | some r => some r
  | none =>
    match siteKeyOf (netlocOf url) with
    | some p => mirrorLoop url mirrorFetch p.2
    | none => none

/-! ### Scraper.scrape (scraper.py lines 1968-2271)

The job pipeline after chapter-link collection.  Network and HTML
parsing are inputs: `links` is the collected link list, `cacheGet` the
chapter-cache lookup `cache.get_chapter(link_url, url)`, and
`completions` the per-link results of `_download_chapter` in the order
`as_completed` yields them.  The progress store is modelled by its
single entry for the `(user_id, novel_url)` pair. -/

/-- The dict passed to save_download_progress (scrape lines 2154-2161,
2183-2190, 2211-2218, 2235-2242). -/
structure ProgressRecord where
  title : String
  chapterStart : Nat
  chapterEnd : Nat
  completedChapters : List String
  failedChapters : List String
  status : String
deriving DecidableEq, Repr

/-- Mutable job state threaded through the as_completed loop. -/
structure LoopState where
  chapters : List Chapter
  completedUrls : List String
  failedUrls : List String
  store : Option ProgressRecord
  processed : List String
deriving DecidableEq, Repr

/-- Everything the job produces: the returned dict plus the final
progress-store entry and the bookkeeping needed to state the claims. -/
structure JobOutcome where
  title : String
  chapters : List Chapter
  failedCount : Nat
  error : Option String
  store : Option ProgressRecord
  dispatched : List (String × Nat)
  processed : List String
deriving DecidableEq, Repr

/-- Python slice `l[a:b]` for nonnegative bounds. -/
def pySlice (l : List α) (a b : Nat) : List α :=
  (l.drop a).take (b - a)

/-- Lines 2104-2114: the index range applied to the sorted link list.
`chapterEnd` keeps Python truthiness (None and 0 both select the list
end); with a truthy end, the ranobes prologue case extends the slice by
one. -/
def rangeBounds (includePrologue : Bool) (chapterStart : Nat) (chapterEnd : Option Nat)
    (linkCount : Nat) : Nat × Nat :=
  let startIdx := chapterStart - 1
  let endIdx :=
    match chapterEnd with
    | none => linkCount
    | some e =>
      if e == 0 then linkCount
      else if includePrologue then min linkCount (e + 1) else e
  (startIdx, endIdx)

/-- Lines 2104-2114: the slice of the sorted link list selected by the
requested range. -/
def selectTarget (includePrologue : Bool) (chapterStart : Nat) (chapterEnd : Option Nat)
    (sortedLinks : List String) : List String :=
  let b := rangeBounds includePrologue chapterStart chapterEnd sortedLinks.length
  pySlice sortedLinks b.1 b.2

/-- Lines 2137-2149: when a resumable progress record exists, chapters
already in the chapter cache are preloaded and removed from the target
list.  The record itself only activates the preload; satisfaction is
decided by cache membership. -/
def resumeFilter (resumeActive : Bool) (cacheGet : String → Option Chapter)
    (target : List String) : List Chapter × List String × List String :=
  if resumeActive then
    let hits := target.filterMap (fun u => (cacheGet u).map (fun c => (u, c)))
    let completed := hits.map (·.1)
    let target2 :=
      if !completed.isEmpty then target.filter (fun u => !completed.contains u) else target
    (hits.map (·.2), completed, target2)
  else ([], [], target)

/-- The as_completed loop (lines 2178-2218).  `cancel` is the
cancel_check callback polled at the start of iteration `k`; on
cancellation the remaining completions are abandoned and a partial
record is saved.  A some result appends to chapters and completed
URLs, a none result (failure or exception) to failed URLs; every tenth
completion persists an in_progress record. -/
def scrapeLoop (userActive : Bool) (mkRec : List String → List String → String → ProgressRecord)
    (cancel : Nat → Bool) :
    Nat → Nat → List (String × Option Chapter) → LoopState → LoopState
  | _, _, [], st => st
  | k, completedCount, (u, r) :: rest, st =>
    if cancel k then
      if userActive then
        { st with store := some (mkRec st.completedUrls st.failedUrls "partial") }
      else st
    else
      let st1 :=
        match r with
        | some ch =>
          { st with chapters := st.chapters ++ [ch],
                    completedUrls := st.completedUrls ++ [u],
                    processed := st.processed ++ [u] }
        | none =>
          { st with failedUrls := st.failedUrls ++ [u],
                    processed := st.processed ++ [u] }
      let cc := completedCount + 1
      let st2 :=
        if userActive && cc % 10 == 0 then
          { st1 with store := some (mkRec st1.completedUrls st1.failedUrls "in_progress") }
        else st1
      scrapeLoop userActive mkRec cancel (k + 1) cc rest st2

/-- The completions the loop actually handles before the cancel poll
stops it: every unit up to the first iteration whose poll returns true. -/
def takenUnits (cancel : Nat → Bool) : Nat → List (String × Option Chapter) →
    List (String × Option Chapter)
  | _, [] => []
  | k, c :: rest => if cancel k then [] else c :: takenUnits cancel (k + 1) rest

/-- Lines 2220-2253: sort and normalize the collected chapters, then
clear the progress record on zero failures or persist it as partial.
This final bookkeeping runs on cancelled jobs as well, since the break
only leaves the loop. -/
def finishJob (userActive : Bool) (mkRec : List String → List String → String → ProgressRecord)
    (includePrologue : Bool) (chapterStart : Nat) (chapterEnd : Option Nat)
    (url title : String) (dispatched : List (String × Nat)) (st : LoopState) : JobOutcome :=
  let normalized := normalizeChapters (sortChapters st.chapters) includePrologue chapterStart chapterEnd url
  let store2 :=
    if userActive then
      if !st.failedUrls.isEmpty then some (mkRec st.completedUrls st.failedUrls "partial")
      else none
    else st.store
  { title := title, chapters := normalized, failedCount := st.failedUrls.length,
    error := none, store := store2, dispatched := dispatched, processed := st.processed }

/-- Scraper.scrape from chapter-link collection onward: sort the links,
apply the requested range, preload resumable chapters from the cache,
save the initial record, run the download loop and finish.  `store0` is
the progress-store entry read at job start (lines 1980-1984) and
`userActive` is `user_id and CACHE_AVAILABLE`. -/
def runScrapeJob (url : String) (chapterStart : Nat) (chapterEnd : Option Nat)
    (userActive : Bool) (store0 : Option ProgressRecord)
    (cacheGet : String → Option Chapter)
    (completions : List (String × Option Chapter))
    (cancel : Nat → Bool) (title : String) (links : List String) : JobOutcome :=
  if links.isEmpty then
    { title := title, chapters := [], failedCount := 0, error := some "No chapter links found",
      store := store0, dispatched := [], processed := [] }
  else
    let sortedLinks := sortLinks links
    let includePrologue := containsSub url "ranobes" && chapterStart == 1
    let target := selectTarget includePrologue chapterStart chapterEnd sortedLinks
    if target.isEmpty then
      { title := title, chapters := [], failedCount := 0,
        error := some "No chapters found in range", store := store0,
        dispatched := [], processed := [] }
    else
      let resumeActive := userActive && store0.isSome
      let rf := resumeFilter resumeActive cacheGet target
      let ceVal :=
        match chapterEnd with
        | some e => if e != 0 then e else sortedLinks.length
        | none => sortedLinks.length
      let mkRec := fun completed failed status =>
        ({ title := title, chapterStart := chapterStart, chapterEnd := ceVal,
           completedChapters := completed, failedChapters := failed,
           status := status } : ProgressRecord)
      let store1 := if userActive then some (mkRec rf.2.1 [] "in_progress") else store0
      let jobs := (rf.2.2.enum).map (fun p => (p.2, p.1 + chapterStart + rf.2.1.length))
      let st0 : LoopState :=
        { chapters := rf.1, completedUrls := rf.2.1, failedUrls := [],
          store := store1, processed := [] }
      let stEnd := scrapeLoop userActive mkRec cancel 0 rf.2.1.length completions st0
      finishJob userActive mkRec includePrologue chapterStart chapterEnd url title jobs stEnd

/-! ## Claims -/

/-- C7, counterexample: a novelbin job with caller-supplied concurrency
5 runs its chapter downloads with 2 workers, which is neither the
forced serial count 1 nor the caller-supplied level 5; so the claim
that every non-aggressive site uses the caller-supplied level (and
every aggressive one uses 1) fails on the code. -/
theorem C7_counterexample :
    chapterWorkers "https://novelbin.com/novel-book/some-novel" 5 = 2 ∧
    chapterWorkers "https://novelbin.com/novel-book/some-novel" 5 ≠ 1 ∧
    chapterWorkers "https://novelbin.com/novel-book/some-novel" 5 ≠ 5 := by
  decide

/-- C7, amended: ranobes jobs are forced to 1 chapter worker regardless
of the caller-supplied level; jobs on the protected sites (novelbin,
lightnovelworld, qidian, webnovel) are capped at 2 workers; all other
sites use the caller-supplied level. -/
theorem C7_amended (url : String) (pw : Nat) :
    (containsSub url "ranobes" = true → chapterWorkers url pw = 1) ∧
    (containsSub url "ranobes" = false → (protectedSiteOf url).isSome →
      chapterWorkers url pw = min pw 2) ∧
    (containsSub url "ranobes" = false → protectedSiteOf url = none →
      chapterWorkers url pw = pw) := by
  refine ⟨fun h => ?_, fun h hp => ?_, fun h hp => ?_⟩
  · simp [chapterWorkers, h]
  · obtain ⟨s, hs⟩ := Option.isSome_iff_exists.mp hp
    simp [chapterWorkers, workersAfterListing, h, hs]
  · simp [chapterWorkers, workersAfterListing, h, hp]

/-- C7, amended, witness at the three site classes. -/
theorem C7_amended_witness :
    chapterWorkers "https://ranobes.net/novels/1-x" 25 = 1 ∧
    chapterWorkers "https://novelbin.com/novel-book/b" 25 = min 25 2 ∧
    chapterWorkers "https://www.royalroad.com/fiction/1" 25 = 25 :=
  ⟨(C7_amended "https://ranobes.net/novels/1-x" 25).1 (by decide),
   (C7_amended "https://novelbin.com/novel-book/b" 25).2.1 (by decide) (by decide),
   (C7_amended "https://www.royalroad.com/fiction/1" 25).2.2 (by decide) (by decide)⟩

/-- C2, counterexample: when every attempt of the retry loop is
blocked, the mirror fallback screens only for the "checking your
browser" signature, so a status-200 mirror response whose body is a
"Just a moment" challenge page is returned as the successful result of
the fetch ladder even though it is classified blocked. -/
theorem C2_counterexample :
    getWithRetry "https://novelbin.io/novel-book/x/chapter-1"
        [some { status := 403, body := "" }]
        (fun _ => some { status := 200, body := "Just a moment... please wait" }) =
      some { status := 200, body := "Just a moment... please wait" } ∧
    blockedResp { status := 200, body := "Just a moment... please wait" } = true := by
  constructor
  · rfl
  · decide

/-- C2, amended: within the retry loop a blocked response (status
403/503/429, or any challenge signature in the body sample) is never
returned and always escalates to the next attempt, so only a clean
status-200 response is returned there; the mirror fallback guarantees
only status 200 and the absence of "checking your browser" in its body
sample, so mirror responses carrying the other block signatures can be
returned. -/
theorem C2_amended :
    (∀ (attempts : List (Option HResp)) (r : HResp),
        retryLoop attempts = some r →
          r.status = 200 ∧ blockedBody200 r.body = false) ∧
    (∀ (url : String) (mirrorFetch : String → Option HResp) (ms : List String) (r : HResp),
        mirrorLoop url mirrorFetch ms = some r →
          r.status = 200 ∧
          containsSubL (lowerL (r.body.data.take 500)) "checking your browser".data = false) := by
  constructor
  · intro attempts
    induction attempts with
    | nil => intro r h; simp [retryLoop] at h
    | cons a rest ih =>
      intro r h
      cases a with
      | none => exact ih r h
      | some q =>
        simp only [retryLoop] at h
        by_cases h200 : q.status == 200
        · rw [if_pos h200] at h
          by_cases hb : blockedBody200 q.body
          · rw [if_pos hb] at h
            exact ih r h
          · rw [if_neg hb] at h
            cases h
            exact ⟨by simpa using h200, Bool.eq_false_iff.mpr hb⟩
        · rw [if_neg h200] at h
          exact ih r h
  · intro url mirrorFetch ms
    induction ms with
    | nil => intro r h; simp [mirrorLoop] at h
    | cons m rest ih =>
      intro r h
      simp only [mirrorLoop] at h
      by_cases hskip : containsSub url m = true
      · rw [if_pos hskip] at h
        exact ih r h
      · rw [if_neg hskip] at h
        cases hf : mirrorFetch m with
        | none => rw [hf] at h; exact ih r h
        | some q =>
          rw [hf] at h
          dsimp only [] at h
          by_cases hok : (q.status == 200 &&
              !containsSubL (lowerL (q.body.data.take 500)) "checking your browser".data) = true
          · rw [if_pos hok] at h
            cases h
            have h1 := (Bool.and_eq_true _ _).mp hok
            exact ⟨by simpa using h1.1, by simpa using h1.2⟩
          · rw [if_neg hok] at h
            exact ih r h

/-- C2, amended, witness: a clean 200 response is returned by the retry
loop and carries no block signature; a clean mirror response passes the
mirror screen. -/
theorem C2_amended_witness :
    ((HResp.mk 200 "plain body").status = 200 ∧
      blockedBody200 (HResp.mk 200 "plain body").body = false) ∧
    ((HResp.mk 200 "mirror body").status = 200 ∧
      containsSubL (lowerL ((HResp.mk 200 "mirror body").body.data.take 500))
        "checking your browser".data = false) :=
  ⟨C2_amended.1 [some (HResp.mk 200 "plain body")] (HResp.mk 200 "plain body") (by decide),
   C2_amended.2 "https://novelbin.io/a" (fun _ => some (HResp.mk 200 "mirror body"))
     ["novelbin.me"] (HResp.mk 200 "mirror body") (by decide)⟩

/-- C10: with chapter_end absent the selected range runs from
chapter_start through the last discovered chapter link, i.e. the
target is every sorted link from index chapter_start - 1 on; and when
the applied range selects nothing, the job returns an error result
carrying no chapters. -/
theorem C10_open_end_range :
    (∀ (ip : Bool) (cs : Nat) (sortedLinks : List String),
        selectTarget ip cs none sortedLinks = sortedLinks.drop (cs - 1)) ∧
    (∀ (url : String) (cs : Nat) (ce : Option Nat) (ua : Bool)
        (store0 : Option ProgressRecord) (cacheGet : String → Option Chapter)
        (comps : List (String × Option Chapter)) (cancel : Nat → Bool)
        (title : String) (links : List String),
        links ≠ [] →
        selectTarget (containsSub url "ranobes" && cs == 1) cs ce (sortLinks links) = [] →
        (runScrapeJob url cs ce ua store0 cacheGet comps cancel title links).chapters = [] ∧
        (runScrapeJob url cs ce ua store0 cacheGet comps cancel title links).error =
          some "No chapters found in range") := by
  constructor
  · intro ip cs sortedLinks
    show pySlice sortedLinks (cs - 1) sortedLinks.length = sortedLinks.drop (cs - 1)
    unfold pySlice
    exact List.take_of_length_le (by simp)
  · intro url cs ce ua store0 cacheGet comps cancel title links hne hempty
    have h1 : links.isEmpty = false := by
      cases links with
      | nil => exact absurd rfl hne
      | cons a l => rfl
    unfold runScrapeJob
    rw [h1]
    simp only [Bool.false_eq_true, if_false, hempty]
    exact ⟨rfl, rfl⟩

/-- C10, witness: an open-ended range from chapter 3 of five links
selects links 3-5; requesting chapter 10 of a single-link novel yields
the empty-range error result. -/
theorem C10_open_end_range_witness :
    selectTarget false 3 none ["a", "b", "c", "d", "e"] = List.drop 2 ["a", "b", "c", "d", "e"] ∧
    (runScrapeJob "https://ex.com/n" 10 none false none (fun _ => none) [] (fun _ => false) "T"
        ["https://ex.com/chapter-1"]).chapters = [] ∧
    (runScrapeJob "https://ex.com/n" 10 none false none (fun _ => none) [] (fun _ => false) "T"
        ["https://ex.com/chapter-1"]).error = some "No chapters found in range" :=
  ⟨C10_open_end_range.1 false 3 ["a", "b", "c", "d", "e"],
   (C10_open_end_range.2 "https://ex.com/n" 10 none false none (fun _ => none) []
      (fun _ => false) "T" ["https://ex.com/chapter-1"] (by decide) (by decide)).1,
   (C10_open_end_range.2 "https://ex.com/n" 10 none false none (fun _ => none) []
      (fun _ => false) "T" ["https://ex.com/chapter-1"] (by decide) (by decide)).2⟩

/-- Filtering with a predicate that only removes non-matching elements
does not change the result of find?. -/
theorem find?_keep_of_excluded {α : Type} (p q : α → Bool) (l : List α)
    (hpq : ∀ a, q a = false → p a = false) :
    (l.filter q).find? p = l.find? p := by
  induction l with
  | nil => rfl
  | cons a rest ih =>
    by_cases hq : q a = true
    · rw [List.filter_cons_of_pos hq]
      by_cases hp : p a = true
      · rw [List.find?_cons_of_pos _ hp, List.find?_cons_of_pos _ hp]
      · rw [List.find?_cons_of_neg _ hp, List.find?_cons_of_neg _ hp]
        exact ih
    · have hq' : q a = false := by simpa using hq
      rw [List.filter_cons_of_neg (by simpa using hq)]
      rw [List.find?_cons_of_neg _ (by simp [hpq a hq'])]
      exact ih

/-- C9: a chapter cache entry is addressed by the pair of the parent
hash of the parent novel and the chapter URL hash, so under distinct novel hashes
the same chapter URL occupies distinct keys; and clearing the chapter
directory of one novel leaves every entry of every other novel - including
un-namespaced entries - unchanged. -/
theorem C9_cache_namespacing (h : String → String) :
    (∀ n1 n2 c : String, h n1 ≠ h n2 →
        chapterKey h c (some n1) ≠ chapterKey h c (some n2)) ∧
    (∀ (cache : ChapterCache) (n nOther cu : String), h nOther ≠ h n →
        getChapter h (clearNovelChapters h cache n) cu (some nOther) =
          getChapter h cache cu (some nOther)) ∧
    (∀ (cache : ChapterCache) (n cu : String),
        getChapter h (clearNovelChapters h cache n) cu none =
          getChapter h cache cu none) := by
  refine ⟨?_, ?_, ?_⟩
  · intro n1 n2 c hne heq
    apply hne
    have := congrArg CacheKey.novelHash heq
    simpa [chapterKey] using this
  · intro cache n nOther cu hne
    unfold getChapter clearNovelChapters
    rw [find?_keep_of_excluded]
    intro e he
    have h1 : e.1.novelHash = some (h n) := by
      have h2 : (e.1.novelHash == some (h n)) = true := by
        cases hx : (e.1.novelHash == some (h n)) with
        | true => rfl
        | false => rw [hx] at he; simp at he
      simpa using h2
    apply beq_eq_false_iff_ne.mpr
    intro hk
    rw [hk] at h1
    simp [chapterKey] at h1
    exact hne h1
  · intro cache n cu
    unfold getChapter clearNovelChapters
    rw [find?_keep_of_excluded]
    intro e he
    have h1 : e.1.novelHash = some (h n) := by
      have h2 : (e.1.novelHash == some (h n)) = true := by
        cases hx : (e.1.novelHash == some (h n)) with
        | true => rfl
        | false => rw [hx] at he; simp at he
      simpa using h2
    apply beq_eq_false_iff_ne.mpr
    intro hk
    rw [hk] at h1
    simp [chapterKey] at h1

/-- C9, witness: with the identity as the hash, the same chapter URL
keyed under two novels occupies two distinct keys, and clearing one
novel leaves the entry of the other novel and an un-namespaced entry
readable. -/
theorem C9_cache_namespacing_witness :
    chapterKey (fun s => s) "c" (some "n1") ≠ chapterKey (fun s => s) "c" (some "n2") ∧
    getChapter (fun s => s)
        (clearNovelChapters (fun s => s)
          [(chapterKey (fun s => s) "c" (some "n1"), Chapter.mk "t" "b" 1 "c")] "n2")
        "c" (some "n1") =
      getChapter (fun s => s)
        [(chapterKey (fun s => s) "c" (some "n1"), Chapter.mk "t" "b" 1 "c")]
        "c" (some "n1") ∧
    getChapter (fun s => s)
        (clearNovelChapters (fun s => s)
          [(chapterKey (fun s => s) "c" none, Chapter.mk "t" "b" 1 "c")] "n2")
        "c" none =
      getChapter (fun s => s)
        [(chapterKey (fun s => s) "c" none, Chapter.mk "t" "b" 1 "c")]
        "c" none :=
  ⟨(C9_cache_namespacing (fun s => s)).1 "n1" "n2" "c" (by decide),
   (C9_cache_namespacing (fun s => s)).2.1
     [(chapterKey (fun s => s) "c" (some "n1"), Chapter.mk "t" "b" 1 "c")]
     "n2" "n1" "c" (by decide),
   (C9_cache_namespacing (fun s => s)).2.2
     [(chapterKey (fun s => s) "c" none, Chapter.mk "t" "b" 1 "c")] "n2" "c"⟩

/-- C3: the chapter cache is written only when the body fed to it (the
normalized extracted content) is longer than 200 characters and free of
the block-page signatures; in particular a body of length at most 200 -
such as the exact string "Rate limited" - leaves the cache untouched. -/
theorem C3_cache_write_guard (h : String → String) (url : String) (num : Nat)
    (novelUrl : Option String) (titleRaw content : String) (cache : ChapterCache) :
    ((downloadChapterTail h url num novelUrl titleRaw content cache).2 = cache ∨
      ((downloadChapterTail h url num novelUrl titleRaw content cache).2 =
          setChapter h cache url (tailChapterData url num novelUrl titleRaw content) novelUrl ∧
        200 < (tailContent content titleRaw novelUrl).length ∧
        containsSub (tailContent content titleRaw novelUrl) "Rate limited" = false ∧
        containsSubL (lowerL (tailContent content titleRaw novelUrl).data)
          "abnormal activity".data = false)) ∧
    ((tailContent content titleRaw novelUrl).length ≤ 200 ∨
        tailContent content titleRaw novelUrl = "Rate limited" →
      (downloadChapterTail h url num novelUrl titleRaw content cache).2 = cache) := by
  unfold downloadChapterTail
  by_cases hg : ((numberMismatchOf url num titleRaw novelUrl || slugPathMismatchOf url novelUrl)
      && containsSub url "novelbuddy") = true
  · rw [if_pos hg]
    exact ⟨Or.inl rfl, fun _ => rfl⟩
  · rw [if_neg hg]
    by_cases hw : cacheWriteOk (tailContent content titleRaw novelUrl) = true
    · rw [if_pos hw]
      have hp := hw
      unfold cacheWriteOk at hp
      simp only [Bool.and_eq_true, Bool.not_eq_true', decide_eq_true_eq] at hp
      obtain ⟨⟨⟨_, hlen⟩, hrate⟩, habn⟩ := hp
      refine ⟨Or.inr ⟨rfl, hlen, hrate, habn⟩, ?_⟩
      rintro (hle | heq)
      · omega
      · rw [heq] at hrate
        exact absurd hrate (by decide)
    · rw [if_neg hw]
      exact ⟨Or.inl rfl, fun _ => rfl⟩

/-- C3, witness: a chapter whose normalized body is the exact string
"Rate limited" is not written to the cache. -/
theorem C3_cache_write_guard_witness :
    tailContent "Rate limited" "Chapter 5" none = "Rate limited" ∧
    (downloadChapterTail (fun s => s) "https://ex.com/book/chapter-5" 5 none
        "Chapter 5" "Rate limited" []).2 = [] :=
  ⟨by decide,
   (C3_cache_write_guard (fun s => s) "https://ex.com/book/chapter-5" 5 none
      "Chapter 5" "Rate limited" []).2 (Or.inr (by decide))⟩

/-- C1: on a NovelBuddy (slug-addressed) chapter download, when the
expected chapter number disagrees with both the number parsed from the
cleaned page title and the number parsed from the URL, or the page path
does not start with the base path of the requested novel, the download
returns failure (None) and writes nothing to the chapter cache; and the
coordinator loop records a failed unit in failed_urls without adding
anything to the chapter result set. -/
theorem C1_mismatch_guard (h : String → String) (url : String) (num : Nat)
    (novelUrl : Option String) (titleRaw content : String) (cache : ChapterCache)
    (hnb : containsSub url "novelbuddy" = true)
    (hguard :
      (num ≠ 0 ∧
        (∃ t, titleNumOf (tailTitle titleRaw novelUrl) = some t ∧ t ≠ 0 ∧ t ≠ num) ∧
        extractNum url ≠ 0 ∧ extractNum url ≠ num) ∨
      (∃ bp, novelBasePathOf novelUrl = some bp ∧
        startsWithL (lowerL (pathOf url).data) bp = false)) :
    downloadChapterTail h url num novelUrl titleRaw content cache = (none, cache) ∧
    (∀ (ua : Bool) (mkRec : List String → List String → String → ProgressRecord)
        (cancel : Nat → Bool) (k cc : Nat) (st : LoopState),
        cancel k = false →
        (scrapeLoop ua mkRec cancel k cc [(url, none)] st).chapters = st.chapters ∧
        (scrapeLoop ua mkRec cancel k cc [(url, none)] st).failedUrls =
          st.failedUrls ++ [url]) := by
  constructor
  · have hcond : (numberMismatchOf url num titleRaw novelUrl ||
        slugPathMismatchOf url novelUrl) = true := by
      rcases hguard with ⟨h0, ⟨t, ht, ht0, htn⟩, hu0, hun⟩ | ⟨bp, hbp, hsw⟩
      · apply Bool.or_eq_true_iff.mpr
        left
        unfold numberMismatchOf
        rw [ht]
        simp [bne_iff_ne, h0, ht0, htn]
      · apply Bool.or_eq_true_iff.mpr
        right
        unfold slugPathMismatchOf
        rw [hbp]
        simp [hnb, hsw]
    unfold downloadChapterTail
    rw [if_pos (by rw [hcond, hnb]; rfl)]
  · intro ua mkRec cancel k cc st hc
    simp only [scrapeLoop, hc, Bool.false_eq_true, if_false]
    by_cases h10 : (ua && (cc + 1) % 10 == 0) = true
    · rw [if_pos h10]
      exact ⟨rfl, rfl⟩
    · rw [if_neg h10]
      exact ⟨rfl, rfl⟩

/-- C1, witness: a NovelBuddy page titled "Chapter 12 ..." fetched for
expected chapter 7 from the path of another novel is dropped: the download
returns None, the cache stays empty, and the loop files the URL under
failed_urls only. -/
theorem C1_mismatch_guard_witness :
    downloadChapterTail (fun s => s) "https://novelbuddy.com/novel/other-novel/chapter-12" 7
        (some "https://novelbuddy.com/novel/my-novel") "Chapter 12 - The Fall"
        "long enough body text" [] = (none, []) ∧
    (scrapeLoop false (fun _ _ _ => ProgressRecord.mk "" 0 0 [] [] "") (fun _ => false) 0 0
        [("https://novelbuddy.com/novel/other-novel/chapter-12", none)]
        (LoopState.mk [] [] [] none [])).chapters = [] ∧
    (scrapeLoop false (fun _ _ _ => ProgressRecord.mk "" 0 0 [] [] "") (fun _ => false) 0 0
        [("https://novelbuddy.com/novel/other-novel/chapter-12", none)]
        (LoopState.mk [] [] [] none [])).failedUrls =
      ["https://novelbuddy.com/novel/other-novel/chapter-12"] := by
  have hmain := C1_mismatch_guard (fun s => s)
    "https://novelbuddy.com/novel/other-novel/chapter-12" 7
    (some "https://novelbuddy.com/novel/my-novel") "Chapter 12 - The Fall"
    "long enough body text" [] (by decide)
    (Or.inl ⟨by decide, ⟨999999, by decide, by decide, by decide⟩, by decide, by decide⟩)
  refine ⟨hmain.1, ?_, ?_⟩
  · exact (hmain.2 false (fun _ _ _ => ProgressRecord.mk "" 0 0 [] [] "") (fun _ => false) 0 0
      (LoopState.mk [] [] [] none []) rfl).1
  · exact (hmain.2 false (fun _ _ _ => ProgressRecord.mk "" 0 0 [] [] "") (fun _ => false) 0 0
      (LoopState.mk [] [] [] none []) rfl).2

/-- The link accumulation produces the accumulator extended by a
subsequence of the candidates. -/
theorem foldl_appendUnique_sublist (cands : List String) :
    ∀ acc, ∃ s, List.foldl appendUnique acc cands = acc ++ s ∧ s.Sublist cands := by
  induction cands with
  | nil => intro acc; exact ⟨[], by simp, List.nil_sublist _⟩
  | cons c cs ih =>
    intro acc
    simp only [List.foldl_cons]
    by_cases hc : c ∈ acc
    · rw [show appendUnique acc c = acc from by unfold appendUnique; rw [if_pos hc]]
      obtain ⟨s, hs, hsub⟩ := ih acc
      exact ⟨s, hs, hsub.cons c⟩
    · rw [show appendUnique acc c = acc ++ [c] from by unfold appendUnique; rw [if_neg hc]]
      obtain ⟨s, hs, hsub⟩ := ih (acc ++ [c])
      refine ⟨c :: s, ?_, hsub.cons₂ c⟩
      rw [hs, List.append_assoc, List.singleton_append]

/-- The link accumulation preserves distinctness. -/
theorem foldl_appendUnique_nodup (cands : List String) :
    ∀ acc, acc.Nodup → (List.foldl appendUnique acc cands).Nodup := by
  induction cands with
  | nil => intro acc h; simpa using h
  | cons c cs ih =>
    intro acc h
    simp only [List.foldl_cons]
    apply ih
    unfold appendUnique
    by_cases hc : c ∈ acc
    · rw [if_pos hc]; exact h
    · rw [if_neg hc]
      simp [List.nodup_append, h, hc]

/-- Membership in the accumulated list. -/
theorem foldl_appendUnique_mem (cands : List String) :
    ∀ acc u, u ∈ List.foldl appendUnique acc cands ↔ u ∈ acc ∨ u ∈ cands := by
  induction cands with
  | nil => intro acc u; simp
  | cons c cs ih =>
    intro acc u
    simp only [List.foldl_cons]
    rw [ih]
    by_cases hc : c ∈ acc
    · rw [show appendUnique acc c = acc from by unfold appendUnique; rw [if_pos hc]]
      simp only [List.mem_cons]
      constructor
      · rintro (h | h)
        · exact Or.inl h
        · exact Or.inr (Or.inr h)
      · rintro (h | h | h)
        · exact Or.inl h
        · exact Or.inl (h ▸ hc)
        · exact Or.inr h
    · rw [show appendUnique acc c = acc ++ [c] from by unfold appendUnique; rw [if_neg hc]]
      simp only [List.mem_append, List.mem_cons, List.not_mem_nil, or_false]
      constructor
      · rintro ((h | h) | h)
        · exact Or.inl h
        · exact Or.inr (Or.inl h)
        · exact Or.inr (Or.inr h)
      · rintro (h | h | h)
        · exact Or.inl (Or.inl h)
        · exact Or.inl (Or.inr h)
        · exact Or.inr h

/-- A URL matched by no pattern gets the sentinel sort key. -/
theorem noPattern_extract (u : String) (h : noPatternMatches u = true) :
    extractNum u = 999999 := by
  unfold noPatternMatches at h
  simp only [Bool.and_eq_true, Option.isNone_iff_eq_none] at h
  unfold extractNum extractChapterNumber
  rw [h.1.1, h.1.2, h.2]

/-- C8, counterexample: "https://ex.com/about" matches none of the
three URL patterns while "https://ex.com/9999999" parses to 9999999,
yet the unparsable link sorts before the parsable one, contradicting
the claim that pattern-free links sort after all links with parsable
numbers. -/
theorem C8_counterexample :
    noPatternMatches "https://ex.com/about" = true ∧
    extractNum "https://ex.com/9999999" = 9999999 ∧
    sortLinks ["https://ex.com/9999999", "https://ex.com/about"] =
      ["https://ex.com/about", "https://ex.com/9999999"] := by
  decide

/-- C8, amended: the inferred chapter number tries the chapter-NNN
pattern, then the trailing /NNN(.html) pattern, then the /cNNN pattern,
in that order; duplicate URLs collapse to their first occurrence in the
assembled list; and a link matching no pattern receives the sentinel
key 999999 and therefore sorts after every link whose parsed number is
below 999999 (but not after parsed numbers of at least 999999). -/
theorem C8_amended :
    (∀ (u : String) (n : Nat),
        (chapterPat u.data = some n → extractNum u = n) ∧
        (chapterPat u.data = none → trailingPat u.data = some n → extractNum u = n) ∧
        (chapterPat u.data = none → trailingPat u.data = none → cPat u.data = some n →
          extractNum u = n)) ∧
    (∀ u : String, noPatternMatches u = true → extractNum u = 999999) ∧
    (∀ cands : List String,
        (assembleLinks cands).Nodup ∧ (assembleLinks cands).Sublist cands ∧
        ∀ u, u ∈ assembleLinks cands ↔ u ∈ cands) ∧
    (∀ (links l1 l2 : List String) (u : String),
        sortLinks links = l1 ++ u :: l2 → noPatternMatches u = true →
        ∀ v ∈ l2, 999999 ≤ linkKey v) := by
  refine ⟨?_, noPattern_extract, ?_, ?_⟩
  · intro u n
    unfold extractNum extractChapterNumber
    refine ⟨fun h1 => ?_, fun h1 h2 => ?_, fun h1 h2 h3 => ?_⟩
    · rw [h1]
    · rw [h1, h2]
    · rw [h1, h2, h3]
  · intro cands
    refine ⟨foldl_appendUnique_nodup cands [] List.nodup_nil, ?_, ?_⟩
    · obtain ⟨s, hs, hsub⟩ := foldl_appendUnique_sublist cands []
      unfold assembleLinks
      rw [hs, List.nil_append]
      exact hsub
    · intro u
      unfold assembleLinks
      rw [foldl_appendUnique_mem]
      simp
  · intro links l1 l2 u heq hnp v hv
    have hs : List.Sorted linkLE (sortLinks links) :=
      List.sorted_insertionSort linkLE links
    rw [heq] at hs
    have hsub : List.Sorted linkLE (u :: l2) :=
      hs.sublist (List.sublist_append_right l1 (u :: l2))
    have hle : linkLE u v := (List.pairwise_cons.mp hsub).1 v hv
    have hu : linkKey u = 999999 := noPattern_extract u hnp
    unfold linkLE at hle
    rw [hu] at hle
    exact hle

/-- C8, amended, witness: the cascade at concrete URLs of each pattern
class, first-occurrence dedup on a concrete candidate list, and the
sentinel position of a pattern-free link in a concrete sort. -/
theorem C8_amended_witness :
    extractNum "https://n.com/novel/x/chapter-3" = 3 ∧
    extractNum "https://ex.com/about" = 999999 ∧
    ((assembleLinks ["a", "b", "a"]).Nodup ∧
      (assembleLinks ["a", "b", "a"]).Sublist ["a", "b", "a"] ∧
      ∀ u, u ∈ assembleLinks ["a", "b", "a"] ↔ u ∈ ["a", "b", "a"]) ∧
    999999 ≤ linkKey "https://ex.com/9999999" :=
  ⟨(C8_amended.1 "https://n.com/novel/x/chapter-3" 3).1 (by decide),
   C8_amended.2.1 "https://ex.com/about" (by decide),
   C8_amended.2.2.1 ["a", "b", "a"],
   C8_amended.2.2.2 ["https://ex.com/9999999", "https://ex.com/about"]
     [] ["https://ex.com/9999999"] "https://ex.com/about"
     (by decide) (by decide) "https://ex.com/9999999" (by decide)⟩

/-! ### Helper lemmas about the chapter sort and the renumbering -/

theorem sortChapters_sorted (l : List Chapter) :
    List.Sorted chapterNumLE (sortChapters l) :=
  List.sorted_insertionSort chapterNumLE l

theorem sortChapters_perm (l : List Chapter) : List.Perm (sortChapters l) l :=
  List.perm_insertionSort chapterNumLE l

/-- With pairwise-distinct chapter numbers the sort is strictly
increasing. -/
theorem sortChapters_strict (l : List Chapter)
    (h : (l.map Chapter.chapter_num).Nodup) :
    List.Pairwise (fun a b : Chapter => a.chapter_num < b.chapter_num) (sortChapters l) := by
  have hle : List.Pairwise chapterNumLE (sortChapters l) := sortChapters_sorted l
  have hnd : ((sortChapters l).map Chapter.chapter_num).Nodup :=
    ((sortChapters_perm l).map Chapter.chapter_num).nodup_iff.mpr h
  have hne : List.Pairwise (fun a b : Chapter => a.chapter_num ≠ b.chapter_num)
      (sortChapters l) := List.pairwise_map.mp hnd
  exact (hle.and hne).imp (fun hab => Nat.lt_of_le_of_ne hab.1 hab.2)

/-- With pairwise-distinct chapter numbers the sorted list does not
depend on the order the chapters were collected in. -/
theorem sortChapters_perm_eq (l lp : List Chapter) (hperm : List.Perm lp l)
    (h : (l.map Chapter.chapter_num).Nodup) : sortChapters lp = sortChapters l := by
  haveI : IsAntisymm Chapter (fun a b : Chapter => a.chapter_num < b.chapter_num) :=
    ⟨fun a b h1 h2 => absurd (Nat.lt_trans h1 h2) (Nat.lt_irrefl _)⟩
  have h2 : (lp.map Chapter.chapter_num).Nodup := ((hperm.map _).nodup_iff).mpr h
  exact List.eq_of_perm_of_sorted
    (((sortChapters_perm lp).trans hperm).trans (sortChapters_perm l).symm)
    (sortChapters_strict lp h2) (sortChapters_strict l h)

theorem pairwise_lt_rangeFrom (n : Nat) :
    ∀ s : Nat, List.Pairwise (· < ·) (List.range' s n) := by
  induction n with
  | zero => intro s; exact List.Pairwise.nil
  | succ m ih =>
    intro s
    rw [List.range'_succ s m 1]
    refine List.pairwise_cons.mpr ⟨?_, ih (s + 1)⟩
    intro x hx
    have := (List.mem_range'_1.mp hx).1
    omega

/-- The renumbering assigns the consecutive numbers from the main start. -/
theorem map_num_numberChapters (isR : Bool) (l : List Chapter) :
    ∀ s, (numberChapters isR s l).map Chapter.chapter_num = List.range' s l.length := by
  induction l with
  | nil => intro s; rfl
  | cons c cs ih =>
    intro s
    simp only [numberChapters, List.map_cons, List.length_cons]
    rw [List.range'_succ s cs.length 1, ih (s + 1)]

/-- The renumbering preserves the source URL and body of each chapter. -/
theorem map_urlcontent_numberChapters (isR : Bool) (l : List Chapter) :
    ∀ s, (numberChapters isR s l).map (fun ch => (ch.url, ch.content)) =
      l.map (fun ch => (ch.url, ch.content)) := by
  induction l with
  | nil => intro s; rfl
  | cons c cs ih =>
    intro s
    simp only [numberChapters, List.map_cons, ih (s + 1)]

/-- The normalized output is strictly increasing in chapter number. -/
theorem normalizeChapters_nums_sorted (chapters : List Chapter) (ip : Bool) (cs : Nat)
    (ce : Option Nat) (url : String) :
    List.Pairwise (fun a b : Chapter => a.chapter_num < b.chapter_num)
      (normalizeChapters chapters ip cs ce url) := by
  unfold normalizeChapters
  by_cases he : chapters.isEmpty = true
  · rw [if_pos he]
    have : chapters = [] := List.isEmpty_iff.mp he
    rw [this]
    exact List.Pairwise.nil
  · rw [if_neg he]
    have hmain : ∀ (s : Nat) (rem : List Chapter),
        List.Pairwise (fun a b : Chapter => a.chapter_num < b.chapter_num)
          (numberChapters (containsSub url "ranobes") s rem) := by
      intro s rem
      apply List.pairwise_map.mp
      rw [map_num_numberChapters]
      exact pairwise_lt_rangeFrom rem.length s
    by_cases hip : ip = true
    · rw [hip]
      cases hpl : (prologueSplit true chapters).1 with
      | none =>
        simp only [prologueEntry, List.nil_append]
        exact hmain 1 _
      | some p =>
        simp only [prologueEntry, List.singleton_append]
        refine List.pairwise_cons.mpr ⟨?_, hmain 1 _⟩
        intro b hb
        have hbn : b.chapter_num ∈
            (numberChapters (containsSub url "ranobes") 1
              (trimToRange cs ce (prologueSplit true chapters).2)).map Chapter.chapter_num :=
          List.mem_map_of_mem Chapter.chapter_num hb
        rw [map_num_numberChapters] at hbn
        have := (List.mem_range'_1.mp hbn).1
        simpa using this
    · have hip2 : ip = false := by simpa using hip
      rw [hip2]
      simp only [prologueSplit, Bool.false_eq_true, if_false, prologueEntry, List.nil_append]
      exact hmain cs _

/-- C5: for chapters with pairwise-distinct chapter numbers (such as a
permutation of 1..5), the final output of the coordinator - the collected
completions sorted by chapter number and normalized - does not depend
on the completion order, and its chapter numbers are strictly
ascending. -/
theorem C5_ordering_invariant (url : String) (ip : Bool) (cs : Nat) (ce : Option Nat)
    (l lp : List Chapter) (hperm : List.Perm lp l)
    (hnd : (l.map Chapter.chapter_num).Nodup) :
    normalizeChapters (sortChapters lp) ip cs ce url =
      normalizeChapters (sortChapters l) ip cs ce url ∧
    List.Pairwise (fun a b : Chapter => a.chapter_num < b.chapter_num)
      (normalizeChapters (sortChapters l) ip cs ce url) :=
  ⟨by rw [sortChapters_perm_eq l lp hperm hnd],
   normalizeChapters_nums_sorted (sortChapters l) ip cs ce url⟩

/-- C5, witness: chapters numbered 5,3,1,4,2 collected in that order
give the same normalized output as the 1..5 completion order, and that
output is strictly ascending in chapter number. -/
theorem C5_ordering_invariant_witness :
    normalizeChapters
        (sortChapters [Chapter.mk "T5" "b5" 5 "u5", Chapter.mk "T3" "b3" 3 "u3",
          Chapter.mk "T1" "b1" 1 "u1", Chapter.mk "T4" "b4" 4 "u4",
          Chapter.mk "T2" "b2" 2 "u2"]) false 1 none "https://ex.com/n" =
      normalizeChapters
        (sortChapters [Chapter.mk "T1" "b1" 1 "u1", Chapter.mk "T2" "b2" 2 "u2",
          Chapter.mk "T3" "b3" 3 "u3", Chapter.mk "T4" "b4" 4 "u4",
          Chapter.mk "T5" "b5" 5 "u5"]) false 1 none "https://ex.com/n" ∧
    List.Pairwise (fun a b : Chapter => a.chapter_num < b.chapter_num)
      (normalizeChapters
        (sortChapters [Chapter.mk "T1" "b1" 1 "u1", Chapter.mk "T2" "b2" 2 "u2",
          Chapter.mk "T3" "b3" 3 "u3", Chapter.mk "T4" "b4" 4 "u4",
          Chapter.mk "T5" "b5" 5 "u5"]) false 1 none "https://ex.com/n") :=
  C5_ordering_invariant "https://ex.com/n" false 1 none
    [Chapter.mk "T1" "b1" 1 "u1", Chapter.mk "T2" "b2" 2 "u2",
      Chapter.mk "T3" "b3" 3 "u3", Chapter.mk "T4" "b4" 4 "u4",
      Chapter.mk "T5" "b5" 5 "u5"]
    [Chapter.mk "T5" "b5" 5 "u5", Chapter.mk "T3" "b3" 3 "u3",
      Chapter.mk "T1" "b1" 1 "u1", Chapter.mk "T4" "b4" 4 "u4",
      Chapter.mk "T2" "b2" 2 "u2"]
    (by decide) (by decide)

/-! ### Characterization of the as_completed loop -/

theorem takenUnits_no_cancel (comps : List (String × Option Chapter)) :
    ∀ k, takenUnits (fun _ => false) k comps = comps := by
  induction comps with
  | nil => intro k; rfl
  | cons c rest ih => intro k; simp [takenUnits, ih (k + 1)]

theorem scrapeLoop_chapters (ua : Bool)
    (mkRec : List String → List String → String → ProgressRecord) (cancel : Nat → Bool) :
    ∀ (comps : List (String × Option Chapter)) (k cc : Nat) (st : LoopState),
      (scrapeLoop ua mkRec cancel k cc comps st).chapters =
        st.chapters ++ (takenUnits cancel k comps).filterMap (fun p => p.2) := by
  intro comps
  induction comps with
  | nil => intro k cc st; simp [scrapeLoop, takenUnits]
  | cons cu rest ih =>
    intro k cc st
    obtain ⟨u, r⟩ := cu
    by_cases hk : cancel k = true
    · cases ua <;> simp [scrapeLoop, takenUnits, hk]
    · have hk2 : cancel k = false := by simpa using hk
      cases r with
      | some ch =>
        by_cases h10 : (ua && (cc + 1) % 10 == 0) = true
        · simp [scrapeLoop, takenUnits, hk2, h10, ih, List.append_assoc]
        · simp [scrapeLoop, takenUnits, hk2, h10, ih, List.append_assoc]
      | none =>
        by_cases h10 : (ua && (cc + 1) % 10 == 0) = true
        · simp [scrapeLoop, takenUnits, hk2, h10, ih]
        · simp [scrapeLoop, takenUnits, hk2, h10, ih]

theorem scrapeLoop_failed (ua : Bool)
    (mkRec : List String → List String → String → ProgressRecord) (cancel : Nat → Bool) :
    ∀ (comps : List (String × Option Chapter)) (k cc : Nat) (st : LoopState),
      (scrapeLoop ua mkRec cancel k cc comps st).failedUrls =
        st.failedUrls ++ (takenUnits cancel k comps).filterMap
          (fun p => if p.2.isNone then some p.1 else none) := by
  intro comps
  induction comps with
  | nil => intro k cc st; simp [scrapeLoop, takenUnits]
  | cons cu rest ih =>
    intro k cc st
    obtain ⟨u, r⟩ := cu
    by_cases hk : cancel k = true
    · cases ua <;> simp [scrapeLoop, takenUnits, hk]
    · have hk2 : cancel k = false := by simpa using hk
      cases r with
      | some ch =>
        by_cases h10 : (ua && (cc + 1) % 10 == 0) = true
        · simp [scrapeLoop, takenUnits, hk2, h10, ih]
        · simp [scrapeLoop, takenUnits, hk2, h10, ih]
      | none =>
        by_cases h10 : (ua && (cc + 1) % 10 == 0) = true
        · simp [scrapeLoop, takenUnits, hk2, h10, ih, List.append_assoc]
        · simp [scrapeLoop, takenUnits, hk2, h10, ih, List.append_assoc]

theorem scrapeLoop_completed (ua : Bool)
    (mkRec : List String → List String → String → ProgressRecord) (cancel : Nat → Bool) :
    ∀ (comps : List (String × Option Chapter)) (k cc : Nat) (st : LoopState),
      (scrapeLoop ua mkRec cancel k cc comps st).completedUrls =
        st.completedUrls ++ (takenUnits cancel k comps).filterMap
          (fun p => if p.2.isSome then some p.1 else none) := by
  intro comps
  induction comps with
  | nil => intro k cc st; simp [scrapeLoop, takenUnits]
  | cons cu rest ih =>
    intro k cc st
    obtain ⟨u, r⟩ := cu
    by_cases hk : cancel k = true
    · cases ua <;> simp [scrapeLoop, takenUnits, hk]
    · have hk2 : cancel k = false := by simpa using hk
      cases r with
      | some ch =>
        by_cases h10 : (ua && (cc + 1) % 10 == 0) = true
        · simp [scrapeLoop, takenUnits, hk2, h10, ih, List.append_assoc]
        · simp [scrapeLoop, takenUnits, hk2, h10, ih, List.append_assoc]
      | none =>
        by_cases h10 : (ua && (cc + 1) % 10 == 0) = true
        · simp [scrapeLoop, takenUnits, hk2, h10, ih]
        · simp [scrapeLoop, takenUnits, hk2, h10, ih]

/-- C6: the cancellation path of the job is broken.  At a mid-job
cancel the loop does save a partial record with the completed and
failed URLs so far and abandons the queue - but the job then falls
through to the final bookkeeping, which on zero failed chapters clears
the record unconditionally, so a job cancelled after two clean
completions ends with no progress record at all. -/
theorem C6_cancel_clears_partial_record :
    (scrapeLoop true
        (fun completed failed status => ProgressRecord.mk "N" 1 4 completed failed status)
        (fun k => decide (2 ≤ k)) 0 0
        [("https://ex.com/n/chapter-1", some (Chapter.mk "C1" "b1" 1 "https://ex.com/n/chapter-1")),
         ("https://ex.com/n/chapter-2", some (Chapter.mk "C2" "b2" 2 "https://ex.com/n/chapter-2")),
         ("https://ex.com/n/chapter-3", some (Chapter.mk "C3" "b3" 3 "https://ex.com/n/chapter-3")),
         ("https://ex.com/n/chapter-4", some (Chapter.mk "C4" "b4" 4 "https://ex.com/n/chapter-4"))]
        (LoopState.mk [] [] [] (some (ProgressRecord.mk "N" 1 4 [] [] "in_progress")) [])).store =
      some (ProgressRecord.mk "N" 1 4
        ["https://ex.com/n/chapter-1", "https://ex.com/n/chapter-2"] [] "partial") ∧
    (runScrapeJob "https://ex.com/n" 1 none true none (fun _ => none)
        [("https://ex.com/n/chapter-1", some (Chapter.mk "C1" "b1" 1 "https://ex.com/n/chapter-1")),
         ("https://ex.com/n/chapter-2", some (Chapter.mk "C2" "b2" 2 "https://ex.com/n/chapter-2")),
         ("https://ex.com/n/chapter-3", some (Chapter.mk "C3" "b3" 3 "https://ex.com/n/chapter-3")),
         ("https://ex.com/n/chapter-4", some (Chapter.mk "C4" "b4" 4 "https://ex.com/n/chapter-4"))]
        (fun k => decide (2 ≤ k)) "N"
        ["https://ex.com/n/chapter-1", "https://ex.com/n/chapter-2",
         "https://ex.com/n/chapter-3", "https://ex.com/n/chapter-4"]).store = none ∧
    (runScrapeJob "https://ex.com/n" 1 none true none (fun _ => none)
        [("https://ex.com/n/chapter-1", some (Chapter.mk "C1" "b1" 1 "https://ex.com/n/chapter-1")),
         ("https://ex.com/n/chapter-2", some (Chapter.mk "C2" "b2" 2 "https://ex.com/n/chapter-2")),
         ("https://ex.com/n/chapter-3", some (Chapter.mk "C3" "b3" 3 "https://ex.com/n/chapter-3")),
         ("https://ex.com/n/chapter-4", some (Chapter.mk "C4" "b4" 4 "https://ex.com/n/chapter-4"))]
        (fun k => decide (2 ≤ k)) "N"
        ["https://ex.com/n/chapter-1", "https://ex.com/n/chapter-2",
         "https://ex.com/n/chapter-3", "https://ex.com/n/chapter-4"]).processed =
      ["https://ex.com/n/chapter-1", "https://ex.com/n/chapter-2"] := by
  refine ⟨by decide, by decide, by decide⟩

/-- C4, counterexample: the job treats chapters as already satisfied
based on the chapter cache, not on the progress record.  With a record
listing chapters 1 and 2 as completed but an empty chapter cache, the
job dispatches downloads for all four chapters, not only for the
remaining two. -/
theorem C4_counterexample :
    ((runScrapeJob "https://ex.com/novel/n" 1 none true
        (some (ProgressRecord.mk "N" 1 4
          ["https://ex.com/novel/n/chapter-1", "https://ex.com/novel/n/chapter-2"] [] "partial"))
        (fun _ => none) [] (fun _ => false) "N"
        ["https://ex.com/novel/n/chapter-1", "https://ex.com/novel/n/chapter-2",
         "https://ex.com/novel/n/chapter-3", "https://ex.com/novel/n/chapter-4"]).dispatched).map
        Prod.fst =
      ["https://ex.com/novel/n/chapter-1", "https://ex.com/novel/n/chapter-2",
       "https://ex.com/novel/n/chapter-3", "https://ex.com/novel/n/chapter-4"] ∧
    (["https://ex.com/novel/n/chapter-1", "https://ex.com/novel/n/chapter-2",
      "https://ex.com/novel/n/chapter-3", "https://ex.com/novel/n/chapter-4"] : List String) ≠
      ["https://ex.com/novel/n/chapter-3", "https://ex.com/novel/n/chapter-4"] := by
  refine ⟨by decide, by decide⟩

/-- C4, amended: when the previously-completed chapters of the resumed
job are present in the chapter cache (as successfully downloaded
chapters are) and the remaining ones are not, the job preloads the
cached two, dispatches downloads only for the remaining two, and - in
any completion order - the final result carries all four chapter bodies
in ascending chapter order. -/
theorem C4_amended
    (url title a b c d : String) (cA cB cC cD : Chapter) (r0 : ProgressRecord)
    (cacheGet : String → Option Chapter) (comps : List (String × Option Chapter))
    (hnr : containsSub url "ranobes" = false)
    (hsort : sortLinks [a, b, c, d] = [a, b, c, d])
    (hca : c ≠ a) (hcb : c ≠ b) (hda : d ≠ a) (hdb : d ≠ b)
    (hga : cacheGet a = some cA) (hgb : cacheGet b = some cB)
    (hgc : cacheGet c = none) (hgd : cacheGet d = none)
    (hn1 : cA.chapter_num = 1) (hn2 : cB.chapter_num = 2)
    (hn3 : cC.chapter_num = 3) (hn4 : cD.chapter_num = 4)
    (hu1 : cA.url = a) (hu2 : cB.url = b) (hu3 : cC.url = c) (hu4 : cD.url = d)
    (hcomps : List.Perm comps [(c, some cC), (d, some cD)]) :
    (runScrapeJob url 1 none true (some r0) cacheGet comps (fun _ => false) title
        [a, b, c, d]).dispatched = [(c, 3), (d, 4)] ∧
    ((runScrapeJob url 1 none true (some r0) cacheGet comps (fun _ => false) title
        [a, b, c, d]).chapters).map (fun ch => (ch.url, ch.content)) =
      [(a, cA.content), (b, cB.content), (c, cC.content), (d, cD.content)] ∧
    List.Pairwise (fun x y : Chapter => x.chapter_num < y.chapter_num)
      (runScrapeJob url 1 none true (some r0) cacheGet comps (fun _ => false) title
        [a, b, c, d]).chapters := by
  -- the resume filter preloads the two cached chapters
  have hbeqca : (c == a) = false := beq_eq_false_iff_ne.mpr hca
  have hbeqcb : (c == b) = false := beq_eq_false_iff_ne.mpr hcb
  have hbeqda : (d == a) = false := beq_eq_false_iff_ne.mpr hda
  have hbeqdb : (d == b) = false := beq_eq_false_iff_ne.mpr hdb
  have hrf : resumeFilter (true && (some r0).isSome) cacheGet [a, b, c, d] =
      ([cA, cB], [a, b], [c, d]) := by
    simp [resumeFilter, hga, hgb, hgc, hgd, List.filter, List.elem, hbeqca, hbeqcb,
      hbeqda, hbeqdb, hca, hcb, hda, hdb]
  -- the job reduced to its final stage
  have hrun : runScrapeJob url 1 none true (some r0) cacheGet comps (fun _ => false) title
      [a, b, c, d] =
      finishJob true
        (fun completed failed status =>
          ProgressRecord.mk title 1 4 completed failed status)
        (containsSub url "ranobes" && (1 == 1)) 1 none url title [(c, 3), (d, 4)]
        (scrapeLoop true
          (fun completed failed status =>
            ProgressRecord.mk title 1 4 completed failed status)
          (fun _ => false) 0 2 comps
          (LoopState.mk [cA, cB] [a, b] []
            (some (ProgressRecord.mk title 1 4 [a, b] [] "in_progress")) [])) := by
    unfold runScrapeJob
    simp only [List.isEmpty_cons, Bool.false_eq_true, if_false, hsort]
    rw [show selectTarget (containsSub url "ranobes" && (1 == 1)) 1 none [a, b, c, d] =
      [a, b, c, d] from rfl]
    simp only [List.isEmpty_cons, Bool.false_eq_true, if_false, hrf]
    rfl
  rw [hrun]
  -- the loop state at job end
  have htaken := takenUnits_no_cancel comps 0
  have hch := scrapeLoop_chapters true
    (fun completed failed status => ProgressRecord.mk title 1 4 completed failed status)
    (fun _ => false) comps 0 2
    (LoopState.mk [cA, cB] [a, b] []
      (some (ProgressRecord.mk title 1 4 [a, b] [] "in_progress")) [])
  rw [htaken] at hch
  -- the collected chapters are a permutation of the four in order
  have hfm : List.Perm (comps.filterMap (fun p => p.2)) [cC, cD] := by
    have := hcomps.filterMap (fun p => p.2)
    simpa using this
  have hperm4 : List.Perm ([cA, cB] ++ comps.filterMap (fun p => p.2)) [cA, cB, cC, cD] :=
    (List.Perm.append_left [cA, cB] hfm).trans (by rfl)
  have hnodup : (([cA, cB, cC, cD] : List Chapter).map Chapter.chapter_num).Nodup := by
    simp [hn1, hn2, hn3, hn4]
  have hsorted4 : List.Sorted chapterNumLE [cA, cB, cC, cD] := by
    simp [List.Sorted, List.pairwise_cons, chapterNumLE, hn1, hn2, hn3, hn4]
  have hsortedeq : sortChapters ([cA, cB] ++ comps.filterMap (fun p => p.2)) =
      [cA, cB, cC, cD] := by
    rw [sortChapters_perm_eq [cA, cB, cC, cD] _ hperm4 hnodup]
    exact List.Sorted.insertionSort_eq hsorted4
  refine ⟨rfl, ?_, ?_⟩
  · show (normalizeChapters
        (sortChapters ((scrapeLoop _ _ _ 0 2 comps _).chapters))
        (containsSub url "ranobes" && (1 == 1)) 1 none url).map
        (fun ch => (ch.url, ch.content)) = _
    rw [hch]
    simp only [LoopState.chapters]
    rw [hsortedeq]
    rw [show (containsSub url "ranobes" && (1 == 1)) = false from by rw [hnr]; rfl]
    unfold normalizeChapters
    simp only [List.isEmpty_cons, Bool.false_eq_true, if_false]
    rw [show prologueSplit false [cA, cB, cC, cD] = (none, [cA, cB, cC, cD]) from rfl]
    simp only [prologueEntry, List.nil_append]
    rw [show trimToRange 1 none [cA, cB, cC, cD] = [cA, cB, cC, cD] from rfl]
    rw [map_urlcontent_numberChapters]
    simp [hu1, hu2, hu3, hu4]
  · show List.Pairwise _ (normalizeChapters
        (sortChapters ((scrapeLoop _ _ _ 0 2 comps _).chapters))
        (containsSub url "ranobes" && (1 == 1)) 1 none url)
    exact normalizeChapters_nums_sorted _ _ _ _ _

/-- C4, amended, witness: a concrete resumed job with chapters 1-2
cached and 3-4 freshly downloaded, completing in reverse order. -/
theorem C4_amended_witness :
    (runScrapeJob "https://ex.com/novel/n" 1 none true
        (some (ProgressRecord.mk "N" 1 4 ["u1", "u2"] [] "partial"))
        (fun u => if u = "https://ex.com/novel/n/chapter-1" then
            some (Chapter.mk "C1" "body one" 1 "https://ex.com/novel/n/chapter-1")
          else if u = "https://ex.com/novel/n/chapter-2" then
            some (Chapter.mk "C2" "body two" 2 "https://ex.com/novel/n/chapter-2")
          else none)
        [("https://ex.com/novel/n/chapter-4",
            some (Chapter.mk "C4" "body four" 4 "https://ex.com/novel/n/chapter-4")),
         ("https://ex.com/novel/n/chapter-3",
            some (Chapter.mk "C3" "body three" 3 "https://ex.com/novel/n/chapter-3"))]
        (fun _ => false) "N"
        ["https://ex.com/novel/n/chapter-1", "https://ex.com/novel/n/chapter-2",
         "https://ex.com/novel/n/chapter-3", "https://ex.com/novel/n/chapter-4"]).dispatched =
      [("https://ex.com/novel/n/chapter-3", 3), ("https://ex.com/novel/n/chapter-4", 4)] ∧
    ((runScrapeJob "https://ex.com/novel/n" 1 none true
        (some (ProgressRecord.mk "N" 1 4 ["u1", "u2"] [] "partial"))
        (fun u => if u = "https://ex.com/novel/n/chapter-1" then
            some (Chapter.mk "C1" "body one" 1 "https://ex.com/novel/n/chapter-1")
          else if u = "https://ex.com/novel/n/chapter-2" then
            some (Chapter.mk "C2" "body two" 2 "https://ex.com/novel/n/chapter-2")
          else none)
        [("https://ex.com/novel/n/chapter-4",
            some (Chapter.mk "C4" "body four" 4 "https://ex.com/novel/n/chapter-4")),
         ("https://ex.com/novel/n/chapter-3",
            some (Chapter.mk "C3" "body three" 3 "https://ex.com/novel/n/chapter-3"))]
        (fun _ => false) "N"
        ["https://ex.com/novel/n/chapter-1", "https://ex.com/novel/n/chapter-2",
         "https://ex.com/novel/n/chapter-3", "https://ex.com/novel/n/chapter-4"]).chapters).map
        (fun ch => (ch.url, ch.content)) =
      [("https://ex.com/novel/n/chapter-1", "body one"),
       ("https://ex.com/novel/n/chapter-2", "body two"),
       ("https://ex.com/novel/n/chapter-3", "body three"),
       ("https://ex.com/novel/n/chapter-4", "body four")] :=
  have h := C4_amended "https://ex.com/novel/n" "N"
    "https://ex.com/novel/n/chapter-1" "https://ex.com/novel/n/chapter-2"
    "https://ex.com/novel/n/chapter-3" "https://ex.com/novel/n/chapter-4"
    (Chapter.mk "C1" "body one" 1 "https://ex.com/novel/n/chapter-1")
    (Chapter.mk "C2" "body two" 2 "https://ex.com/novel/n/chapter-2")
    (Chapter.mk "C3" "body three" 3 "https://ex.com/novel/n/chapter-3")
    (Chapter.mk "C4" "body four" 4 "https://ex.com/novel/n/chapter-4")
    (ProgressRecord.mk "N" 1 4 ["u1", "u2"] [] "partial")
    (fun u => if u = "https://ex.com/novel/n/chapter-1" then
        some (Chapter.mk "C1" "body one" 1 "https://ex.com/novel/n/chapter-1")
      else if u = "https://ex.com/novel/n/chapter-2" then
        some (Chapter.mk "C2" "body two" 2 "https://ex.com/novel/n/chapter-2")
      else none)
    [("https://ex.com/novel/n/chapter-4",
        some (Chapter.mk "C4" "body four" 4 "https://ex.com/novel/n/chapter-4")),
     ("https://ex.com/novel/n/chapter-3",
        some (Chapter.mk "C3" "body three" 3 "https://ex.com/novel/n/chapter-3"))]
    (by decide) (by decide) (by decide) (by decide) (by decide) (by decide)
    (by decide) (by decide) (by decide) (by decide)
    (by decide) (by decide) (by decide) (by decide)
    (by decide) (by decide) (by decide) (by decide) (by decide)
  ⟨h.1, h.2.1⟩

end NovelScraper
